import Mathlib

/-!
Verification development for a small social-feed service (posts, likes,
comments, follows, user profiles).  The route handlers under
src/app/api and their historical variants (src/unnamed) are shallowly
embedded as pure functions over an explicit relational store.  Database
identifiers are opaque in the source (UUID strings); only equality on
them is ever used, so they are modelled as naturals.  Timestamps are
modelled as naturals supplied by a per-store insertion counter.
-/

/-- Row of the users table: internal id, external (Clerk) identity id,
display name. -/
structure User where
  id : Nat
  clerkId : String
  name : String
deriving DecidableEq

/-- Row of the posts table. -/
structure Post where
  id : Nat
  userId : Nat
  imageUrl : String
  caption : Option String
  createdAt : Nat
deriving DecidableEq

/-- Row of the likes table: a (post, user) engagement edge. -/
structure Like where
  postId : Nat
  userId : Nat
deriving DecidableEq

/-- Row of the comments table. -/
structure Comment where
  id : Nat
  postId : Nat
  userId : Nat
  content : String
  createdAt : Nat
deriving DecidableEq

/-- Row of the follows table: a directed (follower, followee) edge. -/
structure Follow where
  followerId : Nat
  followingId : Nat
deriving DecidableEq

/-- The relational store the handlers query.  The nextId counter models
the id and timestamp generation the database performs on insert. -/
structure Store where
  users : List User
  posts : List Post
  likes : List Like
  comments : List Comment
  follows : List Follow
  nextId : Nat := 0
deriving DecidableEq

/-- Lookup a user row by Clerk identity, as in the repeated
"from users select id eq clerk_id single" query of every handler. -/
def findUserByClerk (s : Store) (cid : String) : Option User :=
  s.users.find? (fun u => u.clerkId == cid)

/-- Lookup a user row by internal id. -/
def findUserById (s : Store) (uid : Nat) : Option User :=
  s.users.find? (fun u => u.id == uid)

/-- Lookup a post row by id, as in "from posts select eq id single". -/
def findPost (s : Store) (pid : Nat) : Option Post :=
  s.posts.find? (fun p => p.id == pid)

/-- Lookup a comment row by id. -/
def findComment (s : Store) (kid : Nat) : Option Comment :=
  s.comments.find? (fun k => k.id == kid)

/-- Number of like edges for a given (post, user) pair. -/
def countLikes (s : Store) (pid uid : Nat) : Nat :=
  s.likes.countP (fun l => l.postId == pid && l.userId == uid)

/-- The error object the database client hands back on a failed query:
a Postgres error code plus a human-readable message. -/
structure DbError where
  code : String
  message : String
deriving DecidableEq

/-- The JSON envelope a handler returns: HTTP status plus the body
fields the handlers actually emit (error, details, message, success). -/
structure ApiResponse where
  status : Nat
  error : Option String := none
  details : Option String := none
  message : Option String := none
  success : Bool := false
deriving DecidableEq

/-- Result of running a mutating handler: the HTTP response together
with the store state after the request. -/
structure HandlerResult where
  response : ApiResponse
  store : Store
deriving DecidableEq

/-! Store-level semantics of the insert into likes.  Postgres rejects
the row with foreign-key error 23503 when the referenced post is
absent, and with unique-constraint error 23505 when the (post, user)
pair already exists.  Under the FK invariant of a real store the two
checks can never both fire, so their order is immaterial; the FK check
is performed first here. -/

/-- Insert a like edge, modelling the unique (post_id, user_id)
constraint and the foreign-key constraint on post_id. -/
def likeInsert (s : Store) (pid uid : Nat) : Except DbError Store :=
  if (findPost s pid).isNone then
    .error ⟨"23503", "insert or update on table likes violates foreign key constraint"⟩
  else if s.likes.any (fun l => l.postId == pid && l.userId == uid) then
    .error ⟨"23505", "duplicate key value violates unique constraint"⟩
  else
    .ok { s with likes := ⟨pid, uid⟩ :: s.likes }

/-- Mapping of a failed likes insert to a response, from
src/app/api/likes/route.ts lines 55-68: code 23505 becomes 409
Already liked, everything else becomes a 500 whose details field
carries the database error message. -/
def likesPostStoreErrorResponse (e : DbError) : ApiResponse :=
  if e.code == "23505" then
    { status := 409, error := some "Already liked" }
  else
    { status := 500, error := some "Failed to add like", details := some e.message }

/-- Mapping of a failed follows insert to a response, from
src/app/api/follows/route.ts lines 85-98. -/
def followsPostStoreErrorResponse (e : DbError) : ApiResponse :=
  if e.code == "23505" then
    { status := 409, error := some "Already following" }
  else
    { status := 500, error := some "Failed to add follow", details := some e.message }

/-- Mapping of a failed comments select to a response, from
src/app/api/comments/route.ts lines 38-44: every store failure becomes
a 500 whose details field carries the database error message. -/
def commentsGetStoreErrorResponse (e : DbError) : ApiResponse :=
  { status := 500, error := some "Failed to fetch comments", details := some e.message }

/-- POST /api/likes from src/app/api/likes/route.ts: auth check, body
check, Clerk-to-internal user resolution, then the guarded insert. -/
def likesPOST (s : Store) (clerkId : Option String) (postId : Option Nat) : HandlerResult :=
  match clerkId with
  | none => ⟨{ status := 401, error := some "Unauthorized" }, s⟩
  | some cid =>
    match postId with
    | none => ⟨{ status := 400, error := some "postId is required" }, s⟩
    | some pid =>
      match findUserByClerk s cid with
      | none => ⟨{ status := 404, error := some "User not found" }, s⟩
      | some u =>
        match likeInsert s pid u.id with
        | .error e => ⟨likesPostStoreErrorResponse e, s⟩
        | .ok s2 => ⟨{ status := 200, success := true }, s2⟩

/-- DELETE /api/likes from src/app/api/likes/route.ts: the delete is
scoped to (post_id, user_id); deleting nothing is not an error and the
handler answers success unconditionally. -/
def likesDELETE (s : Store) (clerkId : Option String) (postId : Option Nat) : HandlerResult :=
  match clerkId with
  | none => ⟨{ status := 401, error := some "Unauthorized" }, s⟩
  | some cid =>
    match postId with
    | none => ⟨{ status := 400, error := some "postId is required" }, s⟩
    | some pid =>
      match findUserByClerk s cid with
      | none => ⟨{ status := 404, error := some "User not found" }, s⟩
      | some u =>
        ⟨{ status := 200, success := true },
         { s with likes := s.likes.filter (fun l => !(l.postId == pid && l.userId == u.id)) }⟩

/-- Whitespace trimming as JavaScript String.prototype.trim performs
it on the comment content, implemented over the character list of the
string so that concrete instances evaluate. -/
def jsTrim (c : String) : String :=
  ⟨(((c.data.dropWhile Char.isWhitespace).reverse).dropWhile Char.isWhitespace).reverse⟩

/-- Insert a comment row, modelling the foreign-key constraint on
post_id; the database assigns the id and the creation timestamp,
modelled by the nextId counter. -/
def commentInsert (s : Store) (pid uid : Nat) (content : String) : Except DbError Store :=
  if (findPost s pid).isNone then
    .error ⟨"23503", "insert or update on table comments violates foreign key constraint"⟩
  else
    .ok { s with
          comments := ⟨s.nextId, pid, uid, content, s.nextId⟩ :: s.comments,
          nextId := s.nextId + 1 }

/-- POST /api/comments from src/app/api/comments/route.ts: validates
postId and content, resolves the caller, explicitly checks that the
post exists (404 when it does not), then inserts the trimmed content. -/
def commentsPOSTChecked (s : Store) (clerkId : Option String) (postId : Option Nat)
    (content : Option String) : HandlerResult :=
  match clerkId with
  | none => ⟨{ status := 401, error := some "Unauthorized" }, s⟩
  | some cid =>
    match postId with
    | none => ⟨{ status := 400, error := some "postId is required" }, s⟩
    | some pid =>
      match content with
      | none => ⟨{ status := 400, error := some "content is required and cannot be empty" }, s⟩
      | some c =>
        if (jsTrim c).length == 0 then
          ⟨{ status := 400, error := some "content is required and cannot be empty" }, s⟩
        else
          match findUserByClerk s cid with
          | none => ⟨{ status := 404, error := some "User not found" }, s⟩
          | some u =>
            match findPost s pid with
            | none => ⟨{ status := 404, error := some "Post not found" }, s⟩
            | some _ =>
              match commentInsert s pid u.id (jsTrim c) with
              | .error e =>
                ⟨{ status := 500, error := some "Failed to create comment",
                   details := some e.message }, s⟩
              | .ok s2 => ⟨{ status := 201, success := true }, s2⟩

/-- POST /api/comments from src/unnamed/part_005: same validation and
caller resolution, but no post-existence check; the insert is issued
directly and a foreign-key rejection surfaces as a generic 500. -/
def commentsPOSTNoCheck (s : Store) (clerkId : Option String) (postId : Option Nat)
    (content : Option String) : HandlerResult :=
  match clerkId with
  | none => ⟨{ status := 401, error := some "Unauthorized" }, s⟩
  | some cid =>
    match postId with
    | none => ⟨{ status := 400, error := some "postId is required" }, s⟩
    | some pid =>
      match content with
      | none => ⟨{ status := 400, error := some "content is required" }, s⟩
      | some c =>
        if (jsTrim c).length == 0 then
          ⟨{ status := 400, error := some "content is required" }, s⟩
        else
          match findUserByClerk s cid with
          | none => ⟨{ status := 404, error := some "User not found" }, s⟩
          | some u =>
            match commentInsert s pid u.id (jsTrim c) with
            | .error e =>
              ⟨{ status := 500, error := some "Failed to create comment",
                 details := some e.message }, s⟩
            | .ok s2 => ⟨{ status := 200, success := true }, s2⟩

/-- DELETE /api/comments/[commentId] from src/unnamed/part_006:
fetches the comment, answers 404 when absent, 403 when the caller is
not its author, and only then deletes by id. -/
def commentsDELETEChecked (s : Store) (clerkId : Option String) (kid : Nat) : HandlerResult :=
  match clerkId with
  | none => ⟨{ status := 401, error := some "Unauthorized" }, s⟩
  | some cid =>
    match findUserByClerk s cid with
    | none => ⟨{ status := 404, error := some "User not found" }, s⟩
    | some u =>
      match findComment s kid with
      | none => ⟨{ status := 404, error := some "Comment not found" }, s⟩
      | some k =>
        if k.userId != u.id then
          ⟨{ status := 403, error := some "Forbidden: You can only delete your own comments" }, s⟩
        else
          ⟨{ status := 200, success := true },
           { s with comments := s.comments.filter (fun c => !(c.id == kid)) }⟩

/-- DELETE /api/comments/[commentId] from src/unnamed/part_007: the
delete query itself is scoped to (id, user_id); the handler never
inspects how many rows were removed, so it answers success even when
the scoped delete matched nothing. -/
def commentsDELETEScoped (s : Store) (clerkId : Option String) (kid : Nat) : HandlerResult :=
  match clerkId with
  | none => ⟨{ status := 401, error := some "Unauthorized" }, s⟩
  | some cid =>
    match findUserByClerk s cid with
    | none => ⟨{ status := 404, error := some "User not found" }, s⟩
    | some u =>
      ⟨{ status := 200, success := true },
       { s with comments := s.comments.filter (fun c => !(c.id == kid && c.userId == u.id)) }⟩

/-- Delete every post matching the predicate together with its likes
and comments, modelling the ON DELETE CASCADE the store enforces. -/
def cascadeDeletePosts (s : Store) (pred : Post → Bool) : Store :=
  let removedIds := (s.posts.filter pred).map Post.id
  { s with
    posts := s.posts.filter (fun p => !(pred p)),
    likes := s.likes.filter (fun l => !(removedIds.contains l.postId)),
    comments := s.comments.filter (fun c => !(removedIds.contains c.postId)) }

/-- DELETE /api/posts/[postId] from src/app/api/posts/[postId]/route.ts:
the delete query is scoped to (id, user_id) with an exact row count;
zero rows removed — post absent or owned by someone else — yields 404. -/
def postsDELETEScoped (s : Store) (clerkId : Option String) (pid : Nat) : HandlerResult :=
  match clerkId with
  | none => ⟨{ status := 401, error := some "Unauthorized" }, s⟩
  | some cid =>
    match findUserByClerk s cid with
    | none => ⟨{ status := 404, error := some "User not found" }, s⟩
    | some u =>
      let removed := s.posts.countP (fun p => p.id == pid && p.userId == u.id)
      let s2 := cascadeDeletePosts s (fun p => p.id == pid && p.userId == u.id)
      if removed == 0 then
        ⟨{ status := 404, error := some "Not found" }, s2⟩
      else
        ⟨{ status := 200, success := true }, s2⟩

/-- DELETE /api/posts/[postId] from src/unnamed/part_008: fetches the
post, answers 404 when absent and 403 when the caller is not the
owner, removes the stored image object (external storage, best effort,
no database state), then deletes the row by id with cascade. -/
def postsDELETEChecked (s : Store) (clerkId : Option String) (pid : Nat) : HandlerResult :=
  match clerkId with
  | none => ⟨{ status := 401, error := some "Unauthorized" }, s⟩
  | some cid =>
    match findUserByClerk s cid with
    | none => ⟨{ status := 404, error := some "User not found" }, s⟩
    | some u =>
      match findPost s pid with
      | none => ⟨{ status := 404, error := some "Post not found" }, s⟩
      | some post =>
        if post.userId != u.id then
          ⟨{ status := 403, error := some "Forbidden: You can only delete your own posts" }, s⟩
        else
          ⟨{ status := 200, message := some "Post deleted successfully" },
           cascadeDeletePosts s (fun p => p.id == pid)⟩

/-- Insert a post into a list ordered by creation time descending. -/
def insertDesc (p : Post) : List Post → List Post
  | [] => [p]
  | q :: rest => if p.createdAt ≤ q.createdAt then q :: insertDesc p rest else p :: q :: rest

/-- Order posts by creation time descending, modelling the
"order created_at ascending false" clause of the feed query. -/
def sortByCreatedDesc : List Post → List Post
  | [] => []
  | p :: rest => insertDesc p (sortByCreatedDesc rest)

/-- Feed item: a post joined with its author, the counts from the
post_stats view, and the per-caller like flag. -/
structure FeedPost where
  post : Post
  user : User
  likesCount : Nat
  commentsCount : Nat
  isLiked : Bool
deriving DecidableEq

/-- Response of the feed endpoint: the page plus the hasMore flag, or
an error status. -/
inductive FeedResponse where
  | ok (posts : List FeedPost) (hasMore : Bool)
  | fail (status : Nat)
deriving DecidableEq

/-- Join one page post with its author and recomputed statistics.  The
author default is unreachable: postsGET only calls this after checking
that every page post has its author row (the code throws otherwise). -/
def feedAnnotate (s : Store) (userLikes : List Nat) (p : Post) : FeedPost :=
  { post := p,
    user := (findUserById s p.userId).getD ⟨0, "", ""⟩,
    likesCount := s.likes.countP (fun l => l.postId == p.id),
    commentsCount := s.comments.countP (fun c => c.postId == p.id),
    isLiked := userLikes.contains p.id }

/-- GET /api/posts from src/unnamed/part_007: fetch one page of posts
ordered by creation time descending via range(offset, offset+limit-1),
answer an empty page early with hasMore false, join authors and stats
(a missing author row throws, caught as a 500), compute the caller's
like flags, and set hasMore from an exact total count versus
offset + limit. -/
def postsGET (s : Store) (clerkId : Option String) (limit offset : Nat) : FeedResponse :=
  let ordered := sortByCreatedDesc s.posts
  let page := (ordered.drop offset).take limit
  if page.length == 0 then
    .ok [] false
  else if page.all (fun p => (findUserById s p.userId).isSome) then
    let userLikes :=
      match clerkId with
      | none => []
      | some cid =>
        match findUserByClerk s cid with
        | none => []
        | some cu => (s.likes.filter (fun l => l.userId == cu.id)).map Like.postId
    .ok (page.map (feedAnnotate s userLikes)) (decide (s.posts.length > offset + limit))
  else
    .fail 500

/-- The limit query parameter of GET /api/comments as the handler sees
it: absent, a numeric value, or a string parseInt cannot read. -/
inductive LimitParam where
  | missing
  | numeric (n : Int)
  | nonNumeric
deriving DecidableEq

/-- JavaScript parseInt applied to the limit parameter with the "10"
default of src/app/api/comments/route.ts line 17: a missing parameter
parses to 10, a non-numeric one to NaN, modelled as none. -/
def parseLimitParam : LimitParam → Option Int
  | .missing => some 10
  | .numeric n => some n
  | .nonNumeric => none

/-- Effective limit of GET /api/comments, lines 16-19 of
src/app/api/comments/route.ts: Math.min with 100 on the parsed value.
Math.min propagates NaN, modelled as none. -/
def effectiveCommentsLimit (p : LimitParam) : Option Int :=
  (parseLimitParam p).map (fun n => min n 100)

/-- The userId path parameter of GET /api/users/[userId]: either the
me alias or a concrete internal user id. -/
inductive ProfileParam where
  | me
  | idOf (uid : Nat)
deriving DecidableEq

/-- Profile payload of GET /api/users/[userId]: the user row joined
with the user_stats counts and the isFollowing flag. -/
structure ProfilePayload where
  user : User
  postsCount : Nat
  followersCount : Nat
  followingCount : Nat
  isFollowing : Bool
deriving DecidableEq

/-- Response of the profile endpoint. -/
inductive ProfileResponse where
  | ok (payload : ProfilePayload)
  | fail (status : Nat)
deriving DecidableEq

/-- Resolution of the me alias in GET /api/users/[userId]: me without
a session is 401, me without a mapped user row is 404, and a concrete
id passes through. -/
def resolveProfileTarget (s : Store) (clerkId : Option String) : ProfileParam → Except Nat Nat
  | .me =>
    match clerkId with
    | none => .error 401
    | some cid =>
      match findUserByClerk s cid with
      | none => .error 404
      | some cu => .ok cu.id
  | .idOf uid => .ok uid

/-- Whether a (follower, followee) edge exists, as the maybeSingle
follows lookup observes it. -/
def followExists (s : Store) (fr fe : Nat) : Bool :=
  s.follows.any (fun f => f.followerId == fr && f.followingId == fe)

/-- GET /api/users/[userId] from src/app/api/users/[userId]/route.ts:
resolve the me alias, read the user_stats view row and the users row
(both 404 when the user is absent), then compute isFollowing — the
follows lookup runs only when the caller resolves to a mapped user row
whose id differs from the target, so it stays false on self-view. -/
def usersGET (s : Store) (clerkId : Option String) (param : ProfileParam) : ProfileResponse :=
  match resolveProfileTarget s clerkId param with
  | .error st => .fail st
  | .ok target =>
    match findUserById s target with
    | none => .fail 404
    | some user =>
      let isF :=
        match clerkId with
        | none => false
        | some cid =>
          match findUserByClerk s cid with
          | none => false
          | some cu =>
            if cu.id != target then followExists s cu.id target else false
      .ok { user := user,
            postsCount := s.posts.countP (fun p => p.userId == target),
            followersCount := s.follows.countP (fun f => f.followingId == target),
            followingCount := s.follows.countP (fun f => f.followerId == target),
            isFollowing := isF }

/-! Helper lemmas shared by the claim theorems. -/

/-- A store whose likes list alone was rewritten resolves Clerk
identities exactly as the original store. -/
theorem findUserByClerk_set_likes (s : Store) (l : List Like) (cid : String) :
    findUserByClerk { s with likes := l } cid = findUserByClerk s cid := rfl

/-- A store whose likes list alone was rewritten resolves posts
exactly as the original store. -/
theorem findPost_set_likes (s : Store) (l : List Like) (pid : Nat) :
    findPost { s with likes := l } pid = findPost s pid := rfl

/-- Characterisation of a successful like insert: the post exists, the
edge was absent, and the new store is the old one with the edge added. -/
theorem likeInsert_ok_elim (s : Store) (pid uid : Nat) (s2 : Store)
    (h : likeInsert s pid uid = .ok s2) :
    findPost s pid ≠ none ∧
    s.likes.any (fun l => l.postId == pid && l.userId == uid) = false ∧
    s2 = { s with likes := ⟨pid, uid⟩ :: s.likes } := by
  unfold likeInsert at h
  split at h
  · simp at h
  · split at h
    · simp at h
    · rename_i h1 h2
      refine ⟨by simpa using h1, by simpa using h2, ?_⟩
      injection h with h3
      exact h3.symm

/-- C4 counterexample: a non-unique-constraint store failure of
GET /api/comments is answered with a 500 whose JSON body carries the
raw database error message verbatim in the details field, so the body
does contain raw database error text. -/
theorem comments_get_500_leaks_db_message :
    (commentsGetStoreErrorResponse ⟨"XX000", "connection reset by peer"⟩).status = 500 ∧
    (commentsGetStoreErrorResponse ⟨"XX000", "connection reset by peer"⟩).details =
      some "connection reset by peer" := by
  constructor <;> rfl

/-- C4 (amended): every store-level failure of POST /api/likes,
POST /api/follows or GET /api/comments that is mapped to a 500 keeps a
fixed generic error field but also embeds the raw database error
message in the details field of the JSON body. -/
theorem store_error_500_bodies_include_details (e : DbError) (h : e.code ≠ "23505") :
    likesPostStoreErrorResponse e =
      { status := 500, error := some "Failed to add like", details := some e.message } ∧
    followsPostStoreErrorResponse e =
      { status := 500, error := some "Failed to add follow", details := some e.message } ∧
    commentsGetStoreErrorResponse e =
      { status := 500, error := some "Failed to fetch comments", details := some e.message } := by
  refine ⟨?_, ?_, rfl⟩ <;>
    simp [likesPostStoreErrorResponse, followsPostStoreErrorResponse, h]

/-- C4 witness: the amended statement instantiated at a concrete
foreign-key failure. -/
theorem store_error_500_bodies_include_details_witness :
    ("23503" : String) ≠ "23505" ∧
    (likesPostStoreErrorResponse ⟨"23503", "fk violation"⟩ =
      { status := 500, error := some "Failed to add like", details := some "fk violation" } ∧
     followsPostStoreErrorResponse ⟨"23503", "fk violation"⟩ =
      { status := 500, error := some "Failed to add follow", details := some "fk violation" } ∧
     commentsGetStoreErrorResponse ⟨"23503", "fk violation"⟩ =
      { status := 500, error := some "Failed to fetch comments", details := some "fk violation" }) :=
  ⟨by decide, store_error_500_bodies_include_details ⟨"23503", "fk violation"⟩ (by decide)⟩

/-- C7 counterexample: a limit parameter of 0 passes through the
Math.min clamp untouched, so the effective limit is 0, below the
claimed lower bound of 1. -/
theorem commentsLimit_zero_not_clamped :
    effectiveCommentsLimit (LimitParam.numeric 0) = some 0 ∧ ¬ ((1 : Int) ≤ 0) := by
  constructor
  · rfl
  · decide

/-- C7 (amended): the effective limit of GET /api/comments is clamped
from above at 100 and defaults to 10 when the parameter is missing,
but there is no lower clamp: every numeric input is mapped to exactly
min of the input and 100, so every input not exceeding 100 — zero and
all negatives included — passes through unchanged, and a non-numeric
parameter yields no number at all (NaN). -/
theorem commentsLimit_upper_clamp_only :
    (∀ n, effectiveCommentsLimit (LimitParam.numeric n) = some (min n 100)) ∧
    (∀ n, n ≤ 100 → effectiveCommentsLimit (LimitParam.numeric n) = some n) ∧
    (∀ p n, effectiveCommentsLimit p = some n → n ≤ 100) ∧
    effectiveCommentsLimit LimitParam.missing = some 10 ∧
    effectiveCommentsLimit LimitParam.nonNumeric = none := by
  refine ⟨fun n => rfl, ?_, ?_, rfl, rfl⟩
  · intro n hn
    simp [effectiveCommentsLimit, parseLimitParam]
    omega
  · intro p n h
    cases p with
    | missing =>
      simp [effectiveCommentsLimit, parseLimitParam] at h
      omega
    | numeric m =>
      simp [effectiveCommentsLimit, parseLimitParam] at h
      omega
    | nonNumeric =>
      simp [effectiveCommentsLimit, parseLimitParam] at h

/-- C7 witness: the amended statement exercised at a concrete negative
input, which passes through the missing lower clamp unchanged. -/
theorem commentsLimit_upper_clamp_only_witness :
    (-5 : Int) ≤ 100 ∧ effectiveCommentsLimit (LimitParam.numeric (-5)) = some (-5) :=
  ⟨by decide, commentsLimit_upper_clamp_only.2.1 (-5) (by decide)⟩

/-- C2: once a like by user U on post P has succeeded, repeating the
same call answers 409 Already liked via the unique-constraint branch,
leaves the store untouched, and the store holds exactly one (U, P)
like edge. -/
theorem like_twice_conflict_one_edge (s : Store) (cid : String) (pid : Nat) (u : User)
    (hu : findUserByClerk s cid = some u)
    (h1 : (likesPOST s (some cid) (some pid)).response.success = true) :
    likesPOST (likesPOST s (some cid) (some pid)).store (some cid) (some pid) =
      ⟨{ status := 409, error := some "Already liked" },
       (likesPOST s (some cid) (some pid)).store⟩ ∧
    countLikes (likesPOST s (some cid) (some pid)).store pid u.id = 1 := by
  have hstep : likesPOST s (some cid) (some pid) =
      match likeInsert s pid u.id with
      | .error e => ⟨likesPostStoreErrorResponse e, s⟩
      | .ok s2 => ⟨{ status := 200, success := true }, s2⟩ := by
    simp only [likesPOST]
    rw [hu]
  rcases hres : likeInsert s pid u.id with e | s2
  · rw [hstep, hres] at h1
    exfalso
    unfold likesPostStoreErrorResponse at h1
    by_cases hc : e.code == "23505" <;> simp [hc] at h1
  · obtain ⟨hfk, hab, hs2⟩ := likeInsert_ok_elim s pid u.id s2 hres
    obtain ⟨q, hq⟩ := Option.ne_none_iff_exists'.mp hfk
    have hcall : likesPOST s (some cid) (some pid) =
        ⟨{ status := 200, success := true }, { s with likes := ⟨pid, u.id⟩ :: s.likes }⟩ := by
      rw [hstep, hres, hs2]
    have hdup : likeInsert { s with likes := ⟨pid, u.id⟩ :: s.likes } pid u.id =
        .error ⟨"23505", "duplicate key value violates unique constraint"⟩ := by
      unfold likeInsert
      rw [findPost_set_likes, hq]
      simp
    have hu2 : findUserByClerk { s with likes := ⟨pid, u.id⟩ :: s.likes } cid = some u :=
      (findUserByClerk_set_likes s _ cid).trans hu
    have hsecond : likesPOST { s with likes := ⟨pid, u.id⟩ :: s.likes } (some cid) (some pid) =
        ⟨{ status := 409, error := some "Already liked" },
         { s with likes := ⟨pid, u.id⟩ :: s.likes }⟩ := by
      simp [likesPOST, hu2, hdup, likesPostStoreErrorResponse]
    have hcount : countLikes { s with likes := ⟨pid, u.id⟩ :: s.likes } pid u.id = 1 := by
      have hzero : s.likes.countP (fun l => l.postId == pid && l.userId == u.id) = 0 :=
        List.countP_eq_zero.mpr (List.any_eq_false.mp hab)
      simp [countLikes, List.countP_cons, hzero]
    rw [hcall]
    exact ⟨hsecond, hcount⟩

/-- Concrete user row for the like-toggle witnesses. -/
def likeUserA : User := ⟨1, "a", "Alice"⟩

/-- Concrete post row for the like-toggle witnesses. -/
def likePostX : Post := ⟨10, 1, "img-x", none, 0⟩

/-- Concrete store for the like-toggle witnesses: one user, one post,
no engagement rows yet. -/
def likeStore : Store := ⟨[likeUserA], [likePostX], [], [], [], 1⟩

/-- C2 witness: the double-like property exercised on the concrete
one-user one-post store. -/
theorem like_twice_conflict_one_edge_witness :
    (findUserByClerk likeStore "a" = some likeUserA ∧
     (likesPOST likeStore (some "a") (some 10)).response.success = true) ∧
    (likesPOST (likesPOST likeStore (some "a") (some 10)).store (some "a") (some 10) =
       ⟨{ status := 409, error := some "Already liked" },
        (likesPOST likeStore (some "a") (some 10)).store⟩ ∧
     countLikes (likesPOST likeStore (some "a") (some 10)).store 10 likeUserA.id = 1) :=
  ⟨⟨by decide, by decide⟩,
   like_twice_conflict_one_edge likeStore "a" 10 likeUserA (by decide) (by decide)⟩

/-- C8: for a mapped caller, DELETE /api/likes answers 200 success
whether or not the (user, post) edge exists, is a no-op on the store
when no edge exists, and applying it twice gives exactly the result of
applying it once. -/
theorem unlike_success_idempotent (s : Store) (cid : String) (pid : Nat) (u : User)
    (hu : findUserByClerk s cid = some u) :
    (likesDELETE s (some cid) (some pid)).response = { status := 200, success := true } ∧
    (countLikes s pid u.id = 0 → (likesDELETE s (some cid) (some pid)).store = s) ∧
    likesDELETE (likesDELETE s (some cid) (some pid)).store (some cid) (some pid) =
      likesDELETE s (some cid) (some pid) := by
  have hcall : likesDELETE s (some cid) (some pid) =
      ⟨{ status := 200, success := true },
       { s with likes := s.likes.filter (fun l => !(l.postId == pid && l.userId == u.id)) }⟩ := by
    simp only [likesDELETE]
    rw [hu]
  have hu1 : findUserByClerk
      { s with likes := s.likes.filter (fun l => !(l.postId == pid && l.userId == u.id)) } cid =
      some u := (findUserByClerk_set_likes s _ cid).trans hu
  have hidem : (s.likes.filter (fun l => !(l.postId == pid && l.userId == u.id))).filter
        (fun l => !(l.postId == pid && l.userId == u.id)) =
      s.likes.filter (fun l => !(l.postId == pid && l.userId == u.id)) :=
    List.filter_eq_self.mpr (fun a ha => (List.mem_filter.mp ha).2)
  have hcall2 : likesDELETE
      { s with likes := s.likes.filter (fun l => !(l.postId == pid && l.userId == u.id)) }
      (some cid) (some pid) =
      ⟨{ status := 200, success := true },
       { s with likes := s.likes.filter (fun l => !(l.postId == pid && l.userId == u.id)) }⟩ := by
    simp only [likesDELETE]
    rw [hu1]
    simp [hidem]
  refine ⟨by rw [hcall], ?_, ?_⟩
  · intro h0
    have hself : s.likes.filter (fun l => !(l.postId == pid && l.userId == u.id)) = s.likes := by
      refine List.filter_eq_self.mpr ?_
      intro a ha
      have hna := List.countP_eq_zero.mp h0 a ha
      simp only [Bool.not_eq_true] at hna
      simp [hna]
    rw [hcall, hself]
  · rw [hcall]
    exact hcall2

/-- C8 witness: unlike exercised on the concrete store where the edge
is absent, discharging the no-op hypothesis as well. -/
theorem unlike_success_idempotent_witness :
    findUserByClerk likeStore "a" = some likeUserA ∧
    ((likesDELETE likeStore (some "a") (some 10)).response =
       { status := 200, success := true } ∧
     (countLikes likeStore 10 likeUserA.id = 0 →
       (likesDELETE likeStore (some "a") (some 10)).store = likeStore) ∧
     likesDELETE (likesDELETE likeStore (some "a") (some 10)).store (some "a") (some 10) =
       likesDELETE likeStore (some "a") (some 10)) :=
  ⟨by decide, unlike_success_idempotent likeStore "a" 10 likeUserA (by decide)⟩

/-- C9: when the caller is mapped but the post does not exist, the
like insert hits the foreign-key constraint, whose code is not the
unique-constraint code, so POST /api/likes answers a generic 500 —
never a 404 for the missing post — and inserts nothing. -/
theorem likesPOST_missing_post_500 (s : Store) (cid : String) (pid : Nat) (u : User)
    (hu : findUserByClerk s cid = some u) (hp : findPost s pid = none) :
    likesPOST s (some cid) (some pid) =
      ⟨{ status := 500, error := some "Failed to add like",
         details := some "insert or update on table likes violates foreign key constraint" },
       s⟩ ∧
    (likesPOST s (some cid) (some pid)).response.status ≠ 404 := by
  have hins : likeInsert s pid u.id =
      .error ⟨"23503", "insert or update on table likes violates foreign key constraint"⟩ := by
    unfold likeInsert
    rw [hp]
    simp
  have hcall : likesPOST s (some cid) (some pid) =
      ⟨{ status := 500, error := some "Failed to add like",
         details := some "insert or update on table likes violates foreign key constraint" },
       s⟩ := by
    simp [likesPOST, hu, hins, likesPostStoreErrorResponse]
  refine ⟨hcall, ?_⟩
  rw [hcall]
  simp

/-- Concrete store for the missing-post witness: the caller is mapped
but the posts table is empty. -/
def likeStoreNoPost : Store := ⟨[likeUserA], [], [], [], [], 0⟩

/-- C9 witness: the missing-post 500 exercised on the concrete store
without posts. -/
theorem likesPOST_missing_post_500_witness :
    (findUserByClerk likeStoreNoPost "a" = some likeUserA ∧
     findPost likeStoreNoPost 10 = none) ∧
    (likesPOST likeStoreNoPost (some "a") (some 10) =
       ⟨{ status := 500, error := some "Failed to add like",
          details := some "insert or update on table likes violates foreign key constraint" },
        likeStoreNoPost⟩ ∧
     (likesPOST likeStoreNoPost (some "a") (some 10)).response.status ≠ 404) :=
  ⟨⟨by decide, by decide⟩,
   likesPOST_missing_post_500 likeStoreNoPost "a" 10 likeUserA (by decide) (by decide)⟩

/-- Helper for the self-profile claim: whenever the profile target
resolves to the id of the caller, a successful profile response
carries isFollowing false, because the follows lookup is skipped. -/
theorem profile_self_false_aux (s : Store) (cid : String) (cu : User) (pp : ProfileParam)
    (r : ProfilePayload) (hu : findUserByClerk s cid = some cu)
    (ht : resolveProfileTarget s (some cid) pp = Except.ok cu.id)
    (h : usersGET s (some cid) pp = ProfileResponse.ok r) :
    r.isFollowing = false := by
  simp only [usersGET, ht] at h
  split at h
  · exact absurd h (by simp)
  · simp only [hu, bne_self_eq_false, Bool.false_eq_true, if_false,
      ProfileResponse.ok.injEq] at h
    subst h
    rfl

/-- C10: a caller viewing their own profile — through the me alias or
their own id — is never reported as following themselves: a successful
GET /api/users/[userId] response has isFollowing false, whatever the
follows table holds. -/
theorem own_profile_isFollowing_false (s : Store) (cid : String) (cu : User)
    (r : ProfilePayload) (hu : findUserByClerk s cid = some cu)
    (h : usersGET s (some cid) ProfileParam.me = ProfileResponse.ok r ∨
         usersGET s (some cid) (ProfileParam.idOf cu.id) = ProfileResponse.ok r) :
    r.isFollowing = false := by
  rcases h with h | h
  · exact profile_self_false_aux s cid cu ProfileParam.me r hu
      (by simp [resolveProfileTarget, hu]) h
  · exact profile_self_false_aux s cid cu (ProfileParam.idOf cu.id) r hu
      (by simp [resolveProfileTarget]) h

/-- Concrete store for the self-profile witness: one user who even has
a self-follow edge sitting in the follows table. -/
def profileStore : Store := ⟨[likeUserA], [], [], [], [⟨1, 1⟩], 0⟩

/-- Profile payload the concrete self-view evaluates to: the stats
count the self-follow edge, yet isFollowing stays false. -/
def profilePayloadA : ProfilePayload := ⟨likeUserA, 0, 1, 1, false⟩

/-- C10 witness: the self-profile property exercised through the me
alias on the concrete store with a self-follow edge. -/
theorem own_profile_isFollowing_false_witness :
    (findUserByClerk profileStore "a" = some likeUserA ∧
     usersGET profileStore (some "a") ProfileParam.me = ProfileResponse.ok profilePayloadA) ∧
    profilePayloadA.isFollowing = false :=
  ⟨⟨by decide, by decide⟩,
   own_profile_isFollowing_false profileStore "a" likeUserA profilePayloadA (by decide)
     (Or.inl (by decide))⟩

/-- Concrete second user for the deletion stores. -/
def deleteUserB : User := ⟨2, "b", "Bob"⟩

/-- Concrete post owned by the first user. -/
def deletePost10 : Post := ⟨10, 1, "img-10", none, 0⟩

/-- Concrete store for the post-deletion claims: owner Alice, intruder
Bob, one post of Alice. -/
def deleteStore : Store := ⟨[likeUserA, deleteUserB], [deletePost10], [], [], [], 0⟩

/-- C1 counterexample: an authenticated non-owner deleting through the
deployed DELETE /api/posts/[postId] route receives 404 Not found — not
403 Forbidden — because the ownership-scoped delete removed zero rows;
the post row itself survives. -/
theorem postsDELETEScoped_nonowner_404 :
    (postsDELETEScoped deleteStore (some "b") 10).response.status = 404 ∧
    (postsDELETEScoped deleteStore (some "b") 10).response.status ≠ 403 ∧
    deletePost10 ∈ (postsDELETEScoped deleteStore (some "b") 10).store.posts := by
  decide

/-- C1 (amended): a non-owner never deletes the post and never gets a
success — the ownership-scoped route answers 404 Not found while the
check-then-delete variant answers 403 Forbidden — and the deletion
goes through exactly when the caller is the owner of the post. -/
theorem deletePost_owner_only (s : Store) (cid : String) (pid : Nat) (u : User) (p : Post)
    (hu : findUserByClerk s cid = some u)
    (hp : findPost s pid = some p)
    (huniq : ∀ q ∈ s.posts, q.id = pid → q = p) :
    (p.userId ≠ u.id →
      (postsDELETEScoped s (some cid) pid).response.status = 404 ∧
      p ∈ (postsDELETEScoped s (some cid) pid).store.posts ∧
      (postsDELETEChecked s (some cid) pid).response.status = 403 ∧
      p ∈ (postsDELETEChecked s (some cid) pid).store.posts) ∧
    (p.userId = u.id →
      (postsDELETEScoped s (some cid) pid).response.status = 200 ∧
      p ∉ (postsDELETEScoped s (some cid) pid).store.posts ∧
      (postsDELETEChecked s (some cid) pid).response.status = 200 ∧
      p ∉ (postsDELETEChecked s (some cid) pid).store.posts) := by
  have hmem : p ∈ s.posts := List.mem_of_find?_eq_some hp
  have hpid : p.id = pid := by simpa using List.find?_some hp
  constructor
  · intro hne
    have hcount0 : s.posts.countP (fun q => q.id == pid && q.userId == u.id) = 0 := by
      refine List.countP_eq_zero.mpr ?_
      intro q hq hq2
      rw [Bool.and_eq_true, beq_iff_eq, beq_iff_eq] at hq2
      exact hne ((huniq q hq hq2.1) ▸ hq2.2)
    have hscoped : postsDELETEScoped s (some cid) pid =
        ⟨{ status := 404, error := some "Not found" },
         cascadeDeletePosts s (fun q => q.id == pid && q.userId == u.id)⟩ := by
      simp [postsDELETEScoped, hu, hcount0]
    have hchecked : postsDELETEChecked s (some cid) pid =
        ⟨{ status := 403, error := some "Forbidden: You can only delete your own posts" },
         s⟩ := by
      simp [postsDELETEChecked, hu, hp, hne]
    refine ⟨by rw [hscoped], ?_, by rw [hchecked], by rw [hchecked]; exact hmem⟩
    rw [hscoped]
    show p ∈ s.posts.filter (fun q => !(q.id == pid && q.userId == u.id))
    refine List.mem_filter.mpr ⟨hmem, ?_⟩
    simp [hne]
  · intro heq
    have hpred : (p.id == pid && p.userId == u.id) = true := by
      simp [hpid, heq]
    have hne0 : s.posts.countP (fun q => q.id == pid && q.userId == u.id) ≠ 0 := by
      have hpos : 0 < s.posts.countP (fun q => q.id == pid && q.userId == u.id) :=
        List.countP_pos_iff.mpr ⟨p, hmem, hpred⟩
      omega
    have hscoped : postsDELETEScoped s (some cid) pid =
        ⟨{ status := 200, success := true },
         cascadeDeletePosts s (fun q => q.id == pid && q.userId == u.id)⟩ := by
      simp [postsDELETEScoped, hu, hne0]
    have hchecked : postsDELETEChecked s (some cid) pid =
        ⟨{ status := 200, message := some "Post deleted successfully" },
         cascadeDeletePosts s (fun q => q.id == pid)⟩ := by
      simp [postsDELETEChecked, hu, hp, heq]
    refine ⟨by rw [hscoped], ?_, by rw [hchecked], ?_⟩
    · rw [hscoped]
      show p ∉ s.posts.filter (fun q => !(q.id == pid && q.userId == u.id))
      intro hmem2
      have h2 := (List.mem_filter.mp hmem2).2
      simp [hpid, heq] at h2
    · rw [hchecked]
      show p ∉ s.posts.filter (fun q => !(q.id == pid))
      intro hmem2
      have h2 := (List.mem_filter.mp hmem2).2
      simp [hpid] at h2

/-- C1 witness: the amended statement exercised with the non-owner
Bob against the post of Alice on the concrete store. -/
theorem deletePost_owner_only_witness :
    (findUserByClerk deleteStore "b" = some deleteUserB ∧
     findPost deleteStore 10 = some deletePost10 ∧
     (∀ q ∈ deleteStore.posts, q.id = 10 → q = deletePost10)) ∧
    ((deletePost10.userId ≠ deleteUserB.id →
       (postsDELETEScoped deleteStore (some "b") 10).response.status = 404 ∧
       deletePost10 ∈ (postsDELETEScoped deleteStore (some "b") 10).store.posts ∧
       (postsDELETEChecked deleteStore (some "b") 10).response.status = 403 ∧
       deletePost10 ∈ (postsDELETEChecked deleteStore (some "b") 10).store.posts) ∧
     (deletePost10.userId = deleteUserB.id →
       (postsDELETEScoped deleteStore (some "b") 10).response.status = 200 ∧
       deletePost10 ∉ (postsDELETEScoped deleteStore (some "b") 10).store.posts ∧
       (postsDELETEChecked deleteStore (some "b") 10).response.status = 200 ∧
       deletePost10 ∉ (postsDELETEChecked deleteStore (some "b") 10).store.posts)) :=
  ⟨⟨by decide, by decide, by decide⟩,
   deletePost_owner_only deleteStore "b" 10 deleteUserB deletePost10
     (by decide) (by decide) (by decide)⟩

/-- Concrete comment authored by Bob. -/
def commentK : Comment := ⟨5, 10, 2, "nice", 0⟩

/-- Concrete store for the comment-deletion claims: Alice, Bob, one
post of Alice, one comment of Bob on it. -/
def commentStore : Store := ⟨[likeUserA, deleteUserB], [deletePost10], [], [commentK], [], 0⟩

/-- C6 counterexample: Alice deletes the comment of Bob through the
query-scoped DELETE /api/comments/[commentId] variant and receives a
200 success response — not an error — while the comment stays listed,
because the handler never checks how many rows the scoped delete
removed. -/
theorem commentsDELETEScoped_nonauthor_success :
    (commentsDELETEScoped commentStore (some "a") 5).response.status = 200 ∧
    (commentsDELETEScoped commentStore (some "a") 5).response.success = true ∧
    commentK ∈ (commentsDELETEScoped commentStore (some "a") 5).store.comments := by
  decide

/-- C6 (amended): a non-author never deletes the comment — it remains
listed in both variants — and the check-then-delete variant answers
403 Forbidden, while the query-scoped variant answers a 200 success
response despite removing nothing. -/
theorem deleteComment_nonauthor_keeps_comment (s : Store) (cid : String) (kid : Nat)
    (u : User) (k : Comment)
    (hu : findUserByClerk s cid = some u)
    (hk : findComment s kid = some k)
    (hne : k.userId ≠ u.id) :
    (commentsDELETEChecked s (some cid) kid).response.status = 403 ∧
    (commentsDELETEChecked s (some cid) kid).store = s ∧
    k ∈ (commentsDELETEChecked s (some cid) kid).store.comments ∧
    (commentsDELETEScoped s (some cid) kid).response.status = 200 ∧
    (commentsDELETEScoped s (some cid) kid).response.success = true ∧
    k ∈ (commentsDELETEScoped s (some cid) kid).store.comments := by
  have hmem : k ∈ s.comments := List.mem_of_find?_eq_some hk
  have hchecked : commentsDELETEChecked s (some cid) kid =
      ⟨{ status := 403, error := some "Forbidden: You can only delete your own comments" },
       s⟩ := by
    simp [commentsDELETEChecked, hu, hk, hne]
  have hscoped : commentsDELETEScoped s (some cid) kid =
      ⟨{ status := 200, success := true },
       { s with comments := s.comments.filter (fun c => !(c.id == kid && c.userId == u.id)) }⟩ := by
    simp [commentsDELETEScoped, hu]
  refine ⟨by rw [hchecked], by rw [hchecked], by rw [hchecked]; exact hmem,
          by rw [hscoped], by rw [hscoped], ?_⟩
  rw [hscoped]
  show k ∈ s.comments.filter (fun c => !(c.id == kid && c.userId == u.id))
  refine List.mem_filter.mpr ⟨hmem, ?_⟩
  simp [hne]

/-- C6 witness: the amended statement exercised with Alice against the
comment of Bob on the concrete store. -/
theorem deleteComment_nonauthor_keeps_comment_witness :
    (findUserByClerk commentStore "a" = some likeUserA ∧
     findComment commentStore 5 = some commentK ∧
     commentK.userId ≠ likeUserA.id) ∧
    ((commentsDELETEChecked commentStore (some "a") 5).response.status = 403 ∧
     (commentsDELETEChecked commentStore (some "a") 5).store = commentStore ∧
     commentK ∈ (commentsDELETEChecked commentStore (some "a") 5).store.comments ∧
     (commentsDELETEScoped commentStore (some "a") 5).response.status = 200 ∧
     (commentsDELETEScoped commentStore (some "a") 5).response.success = true ∧
     commentK ∈ (commentsDELETEScoped commentStore (some "a") 5).store.comments) :=
  ⟨⟨by decide, by decide, by decide⟩,
   deleteComment_nonauthor_keeps_comment commentStore "a" 5 likeUserA commentK
     (by decide) (by decide) (by decide)⟩

/-- C5: commenting on a non-existent post with valid content, by a
mapped caller, on a store with no posts.  The canonical handler checks
post existence and answers a clean 404; the part_005 variant skips the
check, the insert hits the foreign-key constraint, and the caller gets
a generic 500 instead — the divergence the specification flags as a
bug.  Neither variant inserts a comment row. -/
theorem addComment_missing_post_behavior :
    (commentsPOSTChecked likeStoreNoPost (some "a") (some 99) (some "hi")).response.status = 404 ∧
    (commentsPOSTChecked likeStoreNoPost (some "a") (some 99) (some "hi")).response.error =
      some "Post not found" ∧
    (commentsPOSTChecked likeStoreNoPost (some "a") (some 99) (some "hi")).store =
      likeStoreNoPost ∧
    (commentsPOSTNoCheck likeStoreNoPost (some "a") (some 99) (some "hi")).response.status = 500 ∧
    (commentsPOSTNoCheck likeStoreNoPost (some "a") (some 99) (some "hi")).response.error =
      some "Failed to create comment" ∧
    (commentsPOSTNoCheck likeStoreNoPost (some "a") (some 99) (some "hi")).store =
      likeStoreNoPost := by
  decide

/-- Inserting into the descending-ordered list adds one element. -/
theorem length_insertDesc (p : Post) (l : List Post) :
    (insertDesc p l).length = l.length + 1 := by
  induction l with
  | nil => rfl
  | cons q rest ih =>
    simp only [insertDesc]
    split
    · simp [ih]
    · simp

/-- Ordering the posts by creation time preserves their number. -/
theorem length_sortByCreatedDesc (l : List Post) :
    (sortByCreatedDesc l).length = l.length := by
  induction l with
  | nil => rfl
  | cons p rest ih => simp [sortByCreatedDesc, length_insertDesc, ih]

/-- C3: for a positive limit, a successful GET /api/posts response has
hasMore false exactly when the offset plus the number of posts in the
returned page reaches the total post count. -/
theorem listPosts_hasMore_iff (s : Store) (clerkId : Option String) (limit offset : Nat)
    (hl : 1 ≤ limit) (posts : List FeedPost) (hasMore : Bool)
    (h : postsGET s clerkId limit offset = FeedResponse.ok posts hasMore) :
    (hasMore = false ↔ s.posts.length ≤ offset + posts.length) := by
  simp only [postsGET] at h
  split at h
  · rename_i hempty
    injection h with hp hh
    subst hp
    subst hh
    have hE : (((sortByCreatedDesc s.posts).drop offset).take limit).length = 0 := by
      simpa using hempty
    rw [List.length_take, List.length_drop, length_sortByCreatedDesc] at hE
    refine iff_of_true rfl ?_
    simp only [List.length_nil]
    omega
  · split at h
    · rename_i hempty hall
      injection h with hp hh
      subst hp
      subst hh
      have hE : (((sortByCreatedDesc s.posts).drop offset).take limit).length =
          min limit (s.posts.length - offset) := by
        rw [List.length_take, List.length_drop, length_sortByCreatedDesc]
      have hne : (((sortByCreatedDesc s.posts).drop offset).take limit).length ≠ 0 := by
        simpa using hempty
      rw [List.length_map, hE]
      rw [hE] at hne
      rw [decide_eq_false_iff_not]
      omega
    · exact absurd h (by simp)

/-- Feed item the concrete one-post store evaluates to. -/
def feedItemX : FeedPost := ⟨likePostX, likeUserA, 0, 0, false⟩

/-- C3 witness: the hasMore characterisation exercised on the concrete
one-post store with limit 1 and offset 0. -/
theorem listPosts_hasMore_iff_witness :
    (1 ≤ 1 ∧ postsGET likeStore none 1 0 = FeedResponse.ok [feedItemX] false) ∧
    ((false : Bool) = false ↔ likeStore.posts.length ≤ 0 + ([feedItemX] : List FeedPost).length) :=
  ⟨⟨by decide, by decide⟩,
   listPosts_hasMore_iff likeStore none 1 0 (by decide) [feedItemX] false (by decide)⟩
